import Mathlib

/-!
Verification of the data-collection pipeline of the Sudan disease-forecasting
repository (notebooks `OpenWeatherMap.ipynb` and `OpenStreetMap.ipynb`).

The Python functions are shallowly embedded as executable Lean definitions:
coordinates (floats in the source) are modelled as rationals, HTTP traffic is
modelled by an explicit oracle mapping each request to the response the server
would return, and Python's heterogeneous nested lists are modelled by the
inductive type `PyVal`.
-/

/-- A coordinate as shapely stores it: `x` is longitude, `y` is latitude.
Rationals stand in for the float values of the source. -/
structure Coord where
  x : ℚ
  y : ℚ
deriving DecidableEq

/-- The shapely geometry kinds the notebooks touch.  A polygon carries its
exterior ring and its interior rings; a multipolygon is a list of polygons
(each an exterior ring paired with interior rings). -/
inductive Geometry
  | point (c : Coord)
  | lineString (cs : List Coord)
  | polygon (exterior : List Coord) (interiors : List (List Coord))
  | multiPolygon (polys : List (List Coord × List (List Coord)))

/-- Shapely's `geom_type` string for each geometry kind. -/
def Geometry.geom_type : Geometry → String
  | .point _ => "Point"
  | .lineString _ => "LineString"
  | .polygon _ _ => "Polygon"
  | .multiPolygon _ => "MultiPolygon"

/-- Python's nested-list values: the return type of
`convert_coordinates_format` (a coordinate tuple, or a list of values). -/
inductive PyVal
  | pt (c : Coord)
  | lst (l : List PyVal)

/-- The length of the outermost Python list (`len(result)`). -/
def PyVal.outerLength : PyVal → Nat
  | .pt _ => 0
  | .lst l => l.length

/-- `list(ring.coords)` as a Python value: the ring's coordinate tuples. -/
def ringToPy (r : List Coord) : PyVal :=
  .lst (r.map .pt)

/-- Embedding of `convert_coordinates_format` (both notebooks, identical):
`if geom_type == 'MultiPolygon'` return `[[list(p.exterior.coords) for p in geoms]]`;
`elif geom_type == 'Polygon'` return `[list(geometry.exterior.coords)]`;
`else` return `[]`.  The branch taken is determined by the constructor,
exactly as `geom_type` is. -/
def convert_coordinates_format : Geometry → PyVal
  | .multiPolygon polys => .lst [.lst (polys.map fun p => ringToPy p.1)]
  | .polygon exterior _ => .lst [ringToPy exterior]
  | .point _ => .lst []
  | .lineString _ => .lst []

/-- All coordinate tuples occurring in a geometry (used to model shapely's
`bounds`, which ranges over every vertex of the geometry). -/
def Geometry.allCoords : Geometry → List Coord
  | .point c => [c]
  | .lineString cs => cs
  | .polygon exterior interiors => exterior ++ interiors.flatten
  | .multiPolygon polys => polys.flatMap fun p => p.1 ++ p.2.flatten

/-- Shapely's `geometry.bounds` tuple `(minx, miny, maxx, maxy)`,
i.e. `(min_lon, min_lat, max_lon, max_lat)`. -/
structure ShapelyBounds where
  minx : ℚ
  miny : ℚ
  maxx : ℚ
  maxy : ℚ
deriving DecidableEq

/-- One step of the running min/max fold that computes the bounds. -/
def boundsStep (b : ShapelyBounds) (d : Coord) : ShapelyBounds :=
  ⟨min b.minx d.x, min b.miny d.y, max b.maxx d.x, max b.maxy d.y⟩

/-- Shapely's `geometry.bounds`: the componentwise min/max over all vertices;
`none` for an empty geometry (where shapely yields an empty/NaN tuple). -/
def Geometry.bounds (g : Geometry) : Option ShapelyBounds :=
  match g.allCoords with
  | [] => none
  | c :: cs => some (cs.foldl boundsStep ⟨c.x, c.y, c.x, c.y⟩)

/-- Embedding of `get_bbox_from_multipolygon` (OpenStreetMap notebook):
`bounds = multipolygon.bounds  # [min_lon, min_lat, max_lon, max_lat]` and
`return [bounds[1], bounds[0], bounds[3], bounds[2]]`, i.e. the reordering
to `[min_lat, min_lon, max_lat, max_lon]`. -/
def get_bbox_from_multipolygon (g : Geometry) : Option (List ℚ) :=
  (g.bounds).map fun b => [b.miny, b.minx, b.maxy, b.maxx]

/-- Embedding of `get_centroid_coordinates` (both notebooks): iterate the
rows, keep only the geometries passing `is_valid`, and append
`(centroid.y, centroid.x)`, i.e. `(lat, lon)`.  Shapely's `is_valid`
predicate and `centroid` computation are library code, so they are taken
as parameters; the claims quantify over them. -/
def get_centroid_coordinates (is_valid : Geometry → Bool)
    (centroid : Geometry → Coord) : List Geometry → List (ℚ × ℚ)
  | [] => []
  | g :: gs =>
    if is_valid g then
      ((centroid g).y, (centroid g).x) :: get_centroid_coordinates is_valid centroid gs
    else
      get_centroid_coordinates is_valid centroid gs

/-- The dates sampled by the weather loop, as day numbers:
`current_date = start_date; while current_date <= end_date: ...;
current_date += timedelta(days=7)`. -/
def sampleDates (startD endD : Nat) : List Nat :=
  if h : startD ≤ endD then startD :: sampleDates (startD + 7) endD else []
termination_by endD + 1 - startD
decreasing_by omega

/-- The request list the weather loop issues for one region's centroid:
one request per sampled date. -/
def regionRequests (c : ℚ × ℚ) (startD endD : Nat) : List ((ℚ × ℚ) × Nat) :=
  (sampleDates startD endD).map fun d => (c, d)

/-- The server's answer to one weather request, as the notebook reads it:
`response.status_code`, the JSON body on success, and
`response.json().get('message', 'Failed to fetch data')` on failure.
The payload type is a parameter (the notebook stores the raw dict). -/
structure WResponse (α : Type) where
  status : Nat
  body : α
  message : String

/-- The dictionary `get_daily_weather` returns: either the success dict
(with a `'data'` key) or the error dict (with an `'error'` key). -/
inductive DailyWeather (α : Type)
  | ok (latitude longitude : ℚ) (date : Nat) (data : α)
  | failed (latitude longitude : ℚ) (date : Nat) (message : String)

/-- Embedding of `get_daily_weather` (OpenWeatherMap notebook): issue the
request via the oracle; `if response.status_code == 200` return the data
dict, else return the error dict carrying the server message. -/
def get_daily_weather (oracle : ℚ → ℚ → Nat → WResponse α)
    (lat lon : ℚ) (date : Nat) : DailyWeather α :=
  let response := oracle lat lon date
  if response.status = 200 then
    .ok lat lon date response.body
  else
    .failed lat lon date response.message

/-- One row appended to `weather_records` by the fetch loop. -/
structure WeatherRecord (α : Type) where
  latitude : ℚ
  longitude : ℚ
  timezone : String
  date : Nat
  data : α

/-- The message the weather loop prints on a failed request. -/
def weather_error_msg (lat lon : ℚ) (date : Nat) (msg : String) : String :=
  s!"Error fetching data for {lat}, {lon} on {date}: {msg}"

/-- The body of `fetch_weather_for_geodataframe`, run over an explicit list
of (centroid, date) pairs: on success append a record (with the hardcoded
timezone `'+02:00'`), on error print the message and continue.  Returns
the accumulated records and the printed error messages, each in order. -/
def fetchLoop (oracle : ℚ → ℚ → Nat → WResponse α) :
    List ((ℚ × ℚ) × Nat) → List (WeatherRecord α) × List String
  | [] => ([], [])
  | p :: ps =>
    let rest := fetchLoop oracle ps
    match get_daily_weather oracle p.1.1 p.1.2 p.2 with
    | .ok la lo d dat => (⟨la, lo, "+02:00", d, dat⟩ :: rest.1, rest.2)
    | .failed la lo d m => (rest.1, weather_error_msg la lo d m :: rest.2)

/-- Embedding of `fetch_weather_for_geodataframe`: for every row's centroid,
for every sampled date from `start_date` to `end_date` stepping 7 days,
issue one request and handle it as `fetchLoop` does. -/
def fetch_weather_for_geodataframe (oracle : ℚ → ℚ → Nat → WResponse α)
    (centroids : List (ℚ × ℚ)) (startD endD : Nat) :
    List (WeatherRecord α) × List String :=
  fetchLoop oracle (centroids.flatMap fun c => regionRequests c startD endD)

/-- An OSM element as the Overpass responses carry them: an id, a position
and tags (only the fields the notebook reads are modelled). -/
structure OsmElement where
  id : Nat
  lat : ℚ
  lon : ℚ
deriving DecidableEq

/-- An Overpass response: the HTTP status and the body's `elements` array
(`response.json().get('elements', [])` yields `[]` when the key is absent,
so a missing array is modelled as the empty list). -/
structure OverpassResponse where
  status : Nat
  elements : List OsmElement

/-- What a call of `get_osm_data_from_bbox` does: return the element list,
raise `requests.HTTPError` (via `response.raise_for_status()`, which raises
exactly for 4xx/5xx statuses), or fall off the end returning Python `None`
(when the status is neither 200 nor an error status). -/
inductive OsmFetchResult
  | elements (es : List OsmElement)
  | raised (status : Nat)
  | pyNone
deriving DecidableEq

/-- Whether the call raised an exception. -/
def OsmFetchResult.isRaised : OsmFetchResult → Bool
  | .raised _ => true
  | _ => false

/-- Embedding of `get_osm_data_from_bbox` (OpenStreetMap notebook):
`if response.status_code == 200` return `elements`; otherwise
`response.raise_for_status()`, which raises for 4xx/5xx and returns
normally for any other status, after which the function returns `None`. -/
def get_osm_data_from_bbox (oracle : List ℚ → OverpassResponse)
    (bbox : List ℚ) : OsmFetchResult :=
  let response := oracle bbox
  if response.status = 200 then
    .elements response.elements
  else if 400 ≤ response.status ∧ response.status < 600 then
    .raised response.status
  else
    .pyNone

/-- The per-region OSM collection loop:
`for row in gdf: osm_data.append(get_osm_data_from_bbox(bbox))` with no
exception handler, so a raised `HTTPError` aborts the whole run (modelled
by `Except`); a Python `None` result is appended as `none`. -/
def osmLoop (oracle : List ℚ → OverpassResponse) :
    List (List ℚ) → Except Nat (List (Option (List OsmElement)))
  | [] => .ok []
  | b :: bs =>
    match get_osm_data_from_bbox oracle b with
    | .elements es => (osmLoop oracle bs).map fun rest => some es :: rest
    | .raised st => .error st
    | .pyNone => (osmLoop oracle bs).map fun rest => none :: rest

/-- The chunks `fetch_node_coordinates` slices the id list into:
`for i in range(0, len(node_ids), 50): node_ids[i:i + 50]` (the notebook
always calls the helper with its default `chunk_size=50`). -/
def fetch_node_chunks (node_ids : List Nat) : List (List Nat) :=
  if node_ids = [] then []
  else node_ids.take 50 :: fetch_node_chunks (node_ids.drop 50)
termination_by node_ids.length
decreasing_by
  rename_i h
  have : 0 < node_ids.length := List.length_pos.mpr h
  simp [List.length_drop]
  omega

/-- The dict comprehension
`nodes = {node['id']: (node['lat'], node['lon']) for node in elements}`
followed by a lookup: later elements overwrite earlier ones, so the lookup
returns the last element with the given id. -/
def nodesDict (es : List OsmElement) (node_id : Nat) : Option (ℚ × ℚ) :=
  (es.reverse.find? fun e => e.id == node_id).map fun e => (e.lat, e.lon)

/-- The message printed when a chunk's request fails. -/
def node_fail_msg (chunk : List Nat) (status : Nat) : String :=
  s!"Failed to fetch data for nodes {chunk}. Status code: {status}"

/-- Embedding of `fetch_node_coordinates` (OpenStreetMap notebook): for each
chunk issue one Overpass request; on status 200 extend the result with
`[nodes[node_id] for node_id in chunk if node_id in nodes]`; otherwise
print a message and continue.  Returns the coordinates and the printed
failure messages. -/
def fetch_node_coordinates (oracle : List Nat → OverpassResponse)
    (node_ids : List Nat) : List (ℚ × ℚ) × List String :=
  (fetch_node_chunks node_ids).foldl
    (fun acc chunk =>
      let response := oracle chunk
      if response.status = 200 then
        (acc.1 ++ chunk.filterMap (nodesDict response.elements), acc.2)
      else
        (acc.1, acc.2 ++ [node_fail_msg chunk response.status]))
    ([], [])

/-- A row of the boundary GeoDataFrame at merge time: the join keys
(`latitude`, `longitude`, derived from the centroid) plus the region's
other attributes, abstracted as one field. -/
structure BoundaryRow (β : Type) where
  latitude : ℚ
  longitude : ℚ
  attrs : β

/-- `pd.merge(gdf, weather_df, on=['latitude', 'longitude'], how='left')`:
for each left row in order, emit one output row per right row with equal
keys, joined; if no right row matches, emit the left row once with the
right side empty (`NaN` weather fields, modelled as `none`). -/
def merge_left_on_coords (gdf : List (BoundaryRow β)) (weather : List (WeatherRecord α)) :
    List (BoundaryRow β × Option (WeatherRecord α)) :=
  gdf.flatMap fun l =>
    match weather.filter (fun w => w.latitude = l.latitude ∧ w.longitude = l.longitude) with
    | [] => [(l, none)]
    | m :: ms => (m :: ms).map fun w => (l, some w)

/-! ### Helper lemmas -/

theorem sampleDates_length_aux :
    ∀ (n s e : Nat), e - s ≤ n →
      (sampleDates s e).length = if s ≤ e then (e - s) / 7 + 1 else 0 := by
  intro n
  induction n with
  | zero =>
    intro s e he
    rw [sampleDates]
    by_cases h : s ≤ e
    · rw [dif_pos h, if_pos h]
      rw [sampleDates, dif_neg (by omega)]
      simp
      omega
    · rw [dif_neg h, if_neg h]
      rfl
  | succ n ih =>
    intro s e he
    rw [sampleDates]
    by_cases h : s ≤ e
    · rw [dif_pos h, if_pos h]
      rw [List.length_cons, ih (s + 7) e (by omega)]
      by_cases h7 : s + 7 ≤ e
      · rw [if_pos h7]
        omega
      · rw [if_neg h7]
        omega
    · rw [dif_neg h, if_neg h]
      rfl

theorem sampleDates_length (s e : Nat) (h : s ≤ e) :
    (sampleDates s e).length = (e - s) / 7 + 1 := by
  rw [sampleDates_length_aux (e - s) s e le_rfl, if_pos h]

theorem foldl_boundsStep_wf :
    ∀ (cs : List Coord) (b : ShapelyBounds),
      b.minx ≤ b.maxx → b.miny ≤ b.maxy →
      (cs.foldl boundsStep b).minx ≤ (cs.foldl boundsStep b).maxx ∧
      (cs.foldl boundsStep b).miny ≤ (cs.foldl boundsStep b).maxy := by
  intro cs
  induction cs with
  | nil => intro b hx hy; exact ⟨hx, hy⟩
  | cons c cs ih =>
    intro b hx hy
    refine ih (boundsStep b c) ?_ ?_
    · exact le_trans (min_le_left _ _) (le_trans hx (le_max_left _ _))
    · exact le_trans (min_le_left _ _) (le_trans hy (le_max_left _ _))

/-- The record produced by one successful (centroid, date) pair, `none`
for a failed pair. -/
def pairRecord (oracle : ℚ → ℚ → Nat → WResponse α)
    (p : (ℚ × ℚ) × Nat) : Option (WeatherRecord α) :=
  match get_daily_weather oracle p.1.1 p.1.2 p.2 with
  | .ok la lo d dat => some ⟨la, lo, "+02:00", d, dat⟩
  | .failed _ _ _ _ => none

/-- The message printed by one failed (centroid, date) pair, `none` for a
successful pair. -/
def pairError (oracle : ℚ → ℚ → Nat → WResponse α)
    (p : (ℚ × ℚ) × Nat) : Option String :=
  match get_daily_weather oracle p.1.1 p.1.2 p.2 with
  | .ok _ _ _ _ => none
  | .failed la lo d m => some (weather_error_msg la lo d m)

theorem fetchLoop_records_eq (oracle : ℚ → ℚ → Nat → WResponse α) :
    ∀ ps : List ((ℚ × ℚ) × Nat),
      (fetchLoop oracle ps).1 = ps.filterMap (pairRecord oracle) := by
  intro ps
  induction ps with
  | nil => rfl
  | cons p ps ih =>
    rw [fetchLoop, List.filterMap_cons]
    unfold pairRecord
    cases h : get_daily_weather oracle p.1.1 p.1.2 p.2 with
    | ok la lo d dat => simpa [h] using ih
    | failed la lo d m => simpa [h] using ih

theorem fetchLoop_log_eq (oracle : ℚ → ℚ → Nat → WResponse α) :
    ∀ ps : List ((ℚ × ℚ) × Nat),
      (fetchLoop oracle ps).2 = ps.filterMap (pairError oracle) := by
  intro ps
  induction ps with
  | nil => rfl
  | cons p ps ih =>
    rw [fetchLoop, List.filterMap_cons]
    unfold pairError
    cases h : get_daily_weather oracle p.1.1 p.1.2 p.2 with
    | ok la lo d dat => simpa [h] using ih
    | failed la lo d m => simpa [h] using ih

theorem filterMap_eq_filterMap_filter (f : α → Option β) (pred : α → Bool)
    (hnone : ∀ x, pred x = false → f x = none) :
    ∀ l : List α, l.filterMap f = (l.filter pred).filterMap f := by
  intro l
  induction l with
  | nil => rfl
  | cons x xs ih =>
    rw [List.filterMap_cons, List.filter_cons]
    by_cases hp : pred x = true
    · rw [if_pos hp, List.filterMap_cons, ih]
    · have := hnone x (by simpa using hp)
      rw [this, if_neg hp, ih]

theorem fetch_node_chunks_aux :
    ∀ (n : Nat) (l : List Nat), l.length ≤ n →
      (fetch_node_chunks l).flatten = l ∧
      (fetch_node_chunks l).length = (l.length + 49) / 50 ∧
      (∀ c ∈ fetch_node_chunks l, c.length ≤ 50) ∧
      (∀ i, i + 1 < (fetch_node_chunks l).length →
        ((fetch_node_chunks l).getD i []).length = 50) := by
  intro n
  induction n with
  | zero =>
    intro l hl
    have : l = [] := List.length_eq_zero.mp (by omega)
    subst this
    rw [fetch_node_chunks, if_pos rfl]
    refine ⟨rfl, rfl, by simp, by simp⟩
  | succ n ih =>
    intro l hl
    rw [fetch_node_chunks]
    by_cases h : l = []
    · rw [if_pos h]
      subst h
      refine ⟨rfl, rfl, by simp, by simp⟩
    · rw [if_neg h]
      have hpos : 0 < l.length := List.length_pos.mpr h
      have hdrop : (l.drop 50).length = l.length - 50 := List.length_drop 50 l
      obtain ⟨ihj, ihlen, ihle, ihfull⟩ := ih (l.drop 50) (by omega)
      refine ⟨?_, ?_, ?_, ?_⟩
      · rw [List.flatten_cons, ihj, List.take_append_drop]
      · rw [List.length_cons, ihlen, hdrop]
        omega
      · intro c hc
        rcases List.mem_cons.mp hc with hc | hc
        · subst hc
          simp [List.length_take]
        · exact ihle c hc
      · intro i hi
        match i with
        | 0 =>
          simp only [List.getD_cons_zero]
          have hrest : fetch_node_chunks (l.drop 50) ≠ [] := by
            intro hnil
            rw [List.length_cons, hnil] at hi
            simp at hi
          have hdropne : l.drop 50 ≠ [] := by
            intro hnil
            rw [fetch_node_chunks, if_pos hnil] at hrest
            exact hrest rfl
          have h50 : 50 < l.length := by
            by_contra hle
            exact hdropne (List.drop_of_length_le (by omega))
          simp [List.length_take]
          omega
        | j + 1 =>
          simp only [List.getD_cons_succ]
          exact ihfull j (by simpa using hi)

theorem fetch_node_chunks_flatten (l : List Nat) :
    (fetch_node_chunks l).flatten = l :=
  (fetch_node_chunks_aux l.length l le_rfl).1

theorem fetch_node_chunks_length (l : List Nat) :
    (fetch_node_chunks l).length = (l.length + 49) / 50 :=
  (fetch_node_chunks_aux l.length l le_rfl).2.1

/-- The coordinates one chunk contributes to the result of
`fetch_node_coordinates`. -/
def chunkCoords (oracle : List Nat → OverpassResponse) (chunk : List Nat) :
    List (ℚ × ℚ) :=
  let response := oracle chunk
  if response.status = 200 then chunk.filterMap (nodesDict response.elements) else []

/-- The failure messages one chunk contributes. -/
def chunkFail (oracle : List Nat → OverpassResponse) (chunk : List Nat) :
    List String :=
  let response := oracle chunk
  if response.status = 200 then [] else [node_fail_msg chunk response.status]

theorem fetch_node_coords_foldl_aux (oracle : List Nat → OverpassResponse) :
    ∀ (chunks : List (List Nat)) (acc : List (ℚ × ℚ) × List String),
      chunks.foldl
        (fun acc chunk =>
          let response := oracle chunk
          if response.status = 200 then
            (acc.1 ++ chunk.filterMap (nodesDict response.elements), acc.2)
          else
            (acc.1, acc.2 ++ [node_fail_msg chunk response.status]))
        acc =
      (acc.1 ++ chunks.flatMap (chunkCoords oracle),
       acc.2 ++ chunks.flatMap (chunkFail oracle)) := by
  intro chunks
  induction chunks with
  | nil => intro acc; simp
  | cons c cs ih =>
    intro acc
    rw [List.foldl_cons, List.flatMap_cons, List.flatMap_cons]
    by_cases hs : (oracle c).status = 200
    · rw [ih]
      simp [chunkCoords, chunkFail, hs]
    · rw [ih]
      simp [chunkCoords, chunkFail, hs]

theorem fetch_node_coordinates_eq (oracle : List Nat → OverpassResponse)
    (node_ids : List Nat) :
    fetch_node_coordinates oracle node_ids =
      ((fetch_node_chunks node_ids).flatMap (chunkCoords oracle),
       (fetch_node_chunks node_ids).flatMap (chunkFail oracle)) := by
  rw [fetch_node_coordinates, fetch_node_coords_foldl_aux]
  simp

theorem osmLoop_abort (oracle : List ℚ → OverpassResponse) (st : Nat) :
    ∀ (pre : List (List ℚ)) (b : List ℚ) (post : List (List ℚ)),
      (∀ b' ∈ pre, (get_osm_data_from_bbox oracle b').isRaised = false) →
      get_osm_data_from_bbox oracle b = .raised st →
      osmLoop oracle (pre ++ b :: post) = .error st := by
  intro pre
  induction pre with
  | nil =>
    intro b post _ hb
    rw [List.nil_append, osmLoop, hb]
  | cons b' pre ih =>
    intro b post hpre hb
    have hrest := ih b post (fun x hx => hpre x (List.mem_cons_of_mem _ hx)) hb
    have hb' := hpre b' (List.mem_cons_self _ _)
    rw [List.cons_append, osmLoop]
    cases hg : get_osm_data_from_bbox oracle b' with
    | elements es => rw [hrest]; rfl
    | raised s => rw [hg] at hb'; simp [OsmFetchResult.isRaised] at hb'
    | pyNone => rw [hrest]; rfl

theorem get_centroid_coordinates_eq (is_valid : Geometry → Bool)
    (centroid : Geometry → Coord) :
    ∀ gdf : List Geometry,
      get_centroid_coordinates is_valid centroid gdf =
        (gdf.filter is_valid).map fun g => ((centroid g).y, (centroid g).x) := by
  intro gdf
  induction gdf with
  | nil => rfl
  | cons g gs ih =>
    rw [get_centroid_coordinates, List.filter_cons]
    by_cases hv : is_valid g = true
    · rw [if_pos hv, if_pos hv, List.map_cons, ih]
    · rw [if_neg hv, if_neg hv, ih]

theorem chunkCoords_length_le (oracle : List Nat → OverpassResponse)
    (chunk : List Nat) : (chunkCoords oracle chunk).length ≤ chunk.length := by
  rw [chunkCoords]
  by_cases hs : (oracle chunk).status = 200
  · simp only [hs, if_pos rfl]
    exact List.length_filterMap_le _ _
  · simp only [if_neg hs]
    exact Nat.zero_le _

theorem flatMap_chunkCoords_length_le (oracle : List Nat → OverpassResponse) :
    ∀ chunks : List (List Nat),
      (chunks.flatMap (chunkCoords oracle)).length ≤ chunks.flatten.length := by
  intro chunks
  induction chunks with
  | nil => simp
  | cons c cs ih =>
    rw [List.flatMap_cons, List.flatten_cons, List.length_append, List.length_append]
    exact Nat.add_le_add (chunkCoords_length_le oracle c) ih

/-! ### Claim theorems -/

/-- A two-polygon multipolygon used to exercise `convert_coordinates_format`. -/
def twoPolys : List (List Coord × List (List Coord)) :=
  [([⟨0, 0⟩, ⟨1, 0⟩, ⟨0, 1⟩, ⟨0, 0⟩], []),
   ([⟨2, 2⟩, ⟨3, 2⟩, ⟨2, 3⟩, ⟨2, 2⟩], [])]

/-- Claim C1, counterexample: for a multipolygon with two constituent
polygon rings, the outer list of `convert_coordinates_format` has one
entry, not two — the per-polygon ring lists are wrapped in one extra
outer list. -/
theorem convert_multipolygon_outer_count_cex :
    twoPolys.length = 2 ∧
    (convert_coordinates_format (.multiPolygon twoPolys)).outerLength = 1 ∧
    (1 : Nat) ≠ 2 := by
  refine ⟨rfl, rfl, by decide⟩

/-- Claim C1, amended: for every multipolygon the outer list of
`convert_coordinates_format` has exactly one entry, and that single entry
holds one ring list per constituent polygon (its exterior ring); for a
plain polygon the result is a single-entry list holding the exterior
ring's coordinates. -/
theorem convert_coordinates_format_spec
    (polys : List (List Coord × List (List Coord)))
    (exterior : List Coord) (interiors : List (List Coord)) :
    convert_coordinates_format (.multiPolygon polys) =
      .lst [.lst (polys.map fun p => ringToPy p.1)] ∧
    (convert_coordinates_format (.multiPolygon polys)).outerLength = 1 ∧
    (polys.map fun p => ringToPy p.1).length = polys.length ∧
    convert_coordinates_format (.polygon exterior interiors) =
      .lst [ringToPy exterior] ∧
    (convert_coordinates_format (.polygon exterior interiors)).outerLength = 1 := by
  exact ⟨rfl, rfl, List.length_map _ _, rfl, rfl⟩

/-- Claim C2, counterexample: the notebook's own range 2024-01-01 to
2024-12-31 (day 0 to day 365, an inclusive one-year range) yields 53
requests per region, but the claimed formula gives
`⌈365 / 7⌉ + 1 = (365 + 6) / 7 + 1 = 54` (and 54 as well if the number of
days is read inclusively as 366). -/
theorem weather_requests_formula_cex :
    (regionRequests (15, 30) 0 365).length = 53 ∧
    (365 + 6) / 7 + 1 = 54 ∧
    (366 + 6) / 7 + 1 = 54 ∧
    (regionRequests (15, 30) 0 365).length ≠ (365 + 6) / 7 + 1 := by
  have h : (regionRequests (15, 30) 0 365).length = 53 := by
    rw [regionRequests, List.length_map, sampleDates_length 0 365 (by omega)]
  refine ⟨h, by norm_num, by norm_num, by rw [h]; norm_num⟩

/-- Claim C2, amended: for an inclusive date range sampled with a weekly
stride, the weather fetch loop issues exactly
`⌊days_in_range / 7⌋ + 1` requests per region, where `days_in_range` is the
day difference `end − start` (equivalently `⌈(days_in_range + 1) / 7⌉`):
one request per sampled date, starting at the start date and stepping
7 days while the current date is at most the end date. -/
theorem weather_requests_per_region (c : ℚ × ℚ) (s e : Nat) (h : s ≤ e) :
    (regionRequests c s e).length = (e - s) / 7 + 1 ∧
    (e - s) / 7 + 1 = (e - s + 1 + 6) / 7 := by
  constructor
  · rw [regionRequests, List.length_map, sampleDates_length s e h]
  · omega

/-- Witness for `weather_requests_per_region` at a non-leap-year range
(day 0 = Jan 1 to day 364 = Dec 31): 53 requests. -/
theorem weather_requests_per_region_witness :
    0 ≤ 364 ∧ (regionRequests (15, 30) 0 364).length = (364 - 0) / 7 + 1 :=
  ⟨by omega, (weather_requests_per_region (15, 30) 0 364 (by omega)).1⟩

/-- Claim C3: for every geometry with a defined bounds tuple,
`get_bbox_from_multipolygon` reorders shapely's
`(min_lon, min_lat, max_lon, max_lat)` bounds into
`[min_lat, min_lon, max_lat, max_lon]`, and the result satisfies
min ≤ max on both axes (element 0 ≤ element 2 and element 1 ≤ element 3). -/
theorem get_bbox_from_multipolygon_spec (g : Geometry) (b : ShapelyBounds)
    (hb : g.bounds = some b) :
    get_bbox_from_multipolygon g = some [b.miny, b.minx, b.maxy, b.maxx] ∧
    b.minx ≤ b.maxx ∧ b.miny ≤ b.maxy ∧
    [b.miny, b.minx, b.maxy, b.maxx].getD 0 0 ≤
      [b.miny, b.minx, b.maxy, b.maxx].getD 2 0 ∧
    [b.miny, b.minx, b.maxy, b.maxx].getD 1 0 ≤
      [b.miny, b.minx, b.maxy, b.maxx].getD 3 0 := by
  have hwf : b.minx ≤ b.maxx ∧ b.miny ≤ b.maxy := by
    unfold Geometry.bounds at hb
    split at hb
    · exact Option.noConfusion hb
    · rename_i c cs _
      have hfold := foldl_boundsStep_wf cs ⟨c.x, c.y, c.x, c.y⟩ le_rfl le_rfl
      rw [Option.some.inj hb] at hfold
      exact hfold
  refine ⟨?_, hwf.1, hwf.2, ?_, ?_⟩
  · unfold get_bbox_from_multipolygon
    rw [hb, Option.map_some']
  · simpa using hwf.2
  · simpa using hwf.1

/-- A concrete polygon for the bounding-box witness. -/
def geoW : Geometry := .polygon [⟨1, 2⟩, ⟨3, 0⟩] []

/-- Witness for `get_bbox_from_multipolygon_spec` at `geoW`:
bounds are `(minx 1, miny 0, maxx 3, maxy 2)` and the bbox list is
`[0, 1, 2, 3]` (`[min_lat, min_lon, max_lat, max_lon]`). -/
theorem get_bbox_from_multipolygon_spec_witness :
    Geometry.bounds geoW = some ⟨1, 0, 3, 2⟩ ∧
    get_bbox_from_multipolygon geoW = some [0, 1, 2, 3] := by
  have hb : Geometry.bounds geoW = some ⟨1, 0, 3, 2⟩ := by
    show Geometry.bounds (.polygon [⟨1, 2⟩, ⟨3, 0⟩] []) = some ⟨1, 0, 3, 2⟩
    unfold Geometry.bounds
    norm_num [Geometry.allCoords, boundsStep, min_def, max_def]
  exact ⟨hb, (get_bbox_from_multipolygon_spec geoW ⟨1, 0, 3, 2⟩ hb).1⟩

/-- Claim C4: for every (centroid, date) pair whose weather request returns
a non-2xx status, the fetch loop appends no record for that pair, prints the
server-provided message, does not raise, and leaves the records of the other
pairs unchanged: the record list always equals the per-pair `filterMap` of
successes, contains no record carrying the failed pair's coordinate and
date, contains the failed pair's printed message in the log, and is equal to
the record list computed with the failed pair removed from the run. -/
theorem weather_non2xx_print_and_continue (oracle : ℚ → ℚ → Nat → WResponse α)
    (ps : List ((ℚ × ℚ) × Nat)) (p : (ℚ × ℚ) × Nat)
    (h : ¬(200 ≤ (oracle p.1.1 p.1.2 p.2).status ∧
           (oracle p.1.1 p.1.2 p.2).status < 300)) :
    (fetchLoop oracle ps).1 = ps.filterMap (pairRecord oracle) ∧
    (∀ r ∈ (fetchLoop oracle ps).1,
      ¬(r.latitude = p.1.1 ∧ r.longitude = p.1.2 ∧ r.date = p.2)) ∧
    (p ∈ ps →
      weather_error_msg p.1.1 p.1.2 p.2 (oracle p.1.1 p.1.2 p.2).message ∈
        (fetchLoop oracle ps).2) ∧
    (fetchLoop oracle ps).1 = (fetchLoop oracle (ps.filter fun q => q ≠ p)).1 := by
  have hst : (oracle p.1.1 p.1.2 p.2).status ≠ 200 := by
    intro h200
    exact h (by rw [h200]; omega)
  have hrecp : pairRecord oracle p = none := by
    unfold pairRecord get_daily_weather
    simp only [if_neg hst]
  refine ⟨fetchLoop_records_eq oracle ps, ?_, ?_, ?_⟩
  · intro r hr hfields
    rw [fetchLoop_records_eq] at hr
    obtain ⟨q, hq, hsome⟩ := List.mem_filterMap.mp hr
    unfold pairRecord get_daily_weather at hsome
    by_cases hq200 : (oracle q.1.1 q.1.2 q.2).status = 200
    · simp only [if_pos hq200] at hsome
      obtain ⟨hla, hlo, hd⟩ := hfields
      rw [← Option.some.inj hsome] at hla hlo hd
      have hqp : q = p := by
        obtain ⟨⟨qla, qlo⟩, qd⟩ := q
        obtain ⟨⟨pla, plo⟩, pd⟩ := p
        simp only at hla hlo hd
        simp [hla, hlo, hd]
      rw [hqp] at hq200
      exact hst hq200
    · simp only [if_neg hq200] at hsome
      exact Option.noConfusion hsome
  · intro hp
    rw [fetchLoop_log_eq]
    refine List.mem_filterMap.mpr ⟨p, hp, ?_⟩
    unfold pairError get_daily_weather
    simp only [if_neg hst]
  · rw [fetchLoop_records_eq, fetchLoop_records_eq]
    refine filterMap_eq_filterMap_filter (pairRecord oracle) (fun q => q ≠ p) ?_ ps
    intro x hx
    have : x = p := by
      by_contra hne
      simp [hne] at hx
    rw [this]
    exact hrecp

/-- A concrete weather oracle: date 0 fails with a 404, any other date
succeeds with payload 7. -/
def oracleW : ℚ → ℚ → Nat → WResponse Nat :=
  fun _ _ d => if d = 0 then ⟨404, 0, "Invalid date"⟩ else ⟨200, 7, ""⟩

/-- The concrete pair list for the weather-failure witness. -/
def psW : List ((ℚ × ℚ) × Nat) := [((1, 2), 0), ((1, 2), 7)]

/-- Witness for `weather_non2xx_print_and_continue`: with `oracleW`, the
request for date 0 returns 404 and its printed message appears in the log. -/
theorem weather_non2xx_print_and_continue_witness :
    ¬(200 ≤ (oracleW 1 2 0).status ∧ (oracleW 1 2 0).status < 300) ∧
    weather_error_msg 1 2 0 (oracleW 1 2 0).message ∈ (fetchLoop oracleW psW).2 :=
  ⟨by decide,
   (weather_non2xx_print_and_continue oracleW psW ((1, 2), 0)
     (by decide)).2.2.1 (by decide)⟩

/-- An Overpass oracle answering every request with status 204 and no body. -/
def oracle204 : List ℚ → OverpassResponse := fun _ => ⟨204, []⟩

/-- Claim C5, counterexample: a 204 response is not 200, yet
`get_osm_data_from_bbox` raises no exception — `raise_for_status()` raises
only for 4xx/5xx, so the function falls through and returns Python `None`. -/
theorem osm_non200_not_always_raised_cex :
    (oracle204 [0, 0, 0, 0]).status ≠ 200 ∧
    (get_osm_data_from_bbox oracle204 [0, 0, 0, 0]).isRaised = false ∧
    get_osm_data_from_bbox oracle204 [0, 0, 0, 0] = .pyNone := by
  refine ⟨by decide, by decide, by decide⟩

/-- Claim C5, amended: `get_osm_data_from_bbox` returns the response's
element list when the Overpass request returns status 200; when the status
is a 4xx/5xx error (the statuses for which `raise_for_status` raises) it
raises, and the raised exception propagates through the unguarded per-region
loop and aborts the whole run; for any other non-200 status the function
raises nothing and returns Python `None`. -/
theorem osm_fetch_status_spec (oracle : List ℚ → OverpassResponse)
    (b : List ℚ) :
    ((oracle b).status = 200 →
      get_osm_data_from_bbox oracle b = .elements (oracle b).elements) ∧
    (400 ≤ (oracle b).status ∧ (oracle b).status < 600 →
      get_osm_data_from_bbox oracle b = .raised (oracle b).status ∧
      ∀ pre post,
        (∀ b' ∈ pre, (get_osm_data_from_bbox oracle b').isRaised = false) →
        osmLoop oracle (pre ++ b :: post) = .error (oracle b).status) ∧
    ((oracle b).status ≠ 200 →
      ¬(400 ≤ (oracle b).status ∧ (oracle b).status < 600) →
      get_osm_data_from_bbox oracle b = .pyNone) := by
  refine ⟨?_, ?_, ?_⟩
  · intro h200
    unfold get_osm_data_from_bbox
    rw [if_pos h200]
  · intro herr
    have hne : (oracle b).status ≠ 200 := by omega
    have hraised : get_osm_data_from_bbox oracle b = .raised (oracle b).status := by
      unfold get_osm_data_from_bbox
      rw [if_neg hne, if_pos herr]
    exact ⟨hraised, fun pre post hpre => osmLoop_abort oracle _ pre b post hpre hraised⟩
  · intro hne herr
    unfold get_osm_data_from_bbox
    rw [if_neg hne, if_neg herr]

/-- A concrete Overpass oracle: the bounding box `[9, 9, 9, 9]` gets a 500
response, every other box succeeds. -/
def oracleOsm : List ℚ → OverpassResponse :=
  fun b => if b = [9, 9, 9, 9] then ⟨500, []⟩ else ⟨200, []⟩

/-- Witness for `osm_fetch_status_spec`: a 500 on the second region aborts
the OSM collection loop with that status. -/
theorem osm_fetch_status_spec_witness :
    (400 ≤ (oracleOsm [9, 9, 9, 9]).status ∧ (oracleOsm [9, 9, 9, 9]).status < 600) ∧
    osmLoop oracleOsm ([[0, 0, 0, 0]] ++ [9, 9, 9, 9] :: [[1, 1, 1, 1]]) =
      .error (oracleOsm [9, 9, 9, 9]).status :=
  ⟨by decide,
   ((osm_fetch_status_spec oracleOsm [9, 9, 9, 9]).2.1 (by decide)).2
     [[0, 0, 0, 0]] [[1, 1, 1, 1]] (by decide)⟩

/-- Claim C6: for every validity predicate, centroid function and input
table, `get_centroid_coordinates` returns the (lat, lon) centroids of
exactly the geometries passing the validity check, in input order, with
invalid geometries silently excluded; the output length is the number of
valid geometries, which is at most — and can be strictly smaller than —
the number of rows. -/
theorem get_centroid_coordinates_spec (is_valid : Geometry → Bool)
    (centroid : Geometry → Coord) (gdf : List Geometry) :
    get_centroid_coordinates is_valid centroid gdf =
      (gdf.filter is_valid).map (fun g => ((centroid g).y, (centroid g).x)) ∧
    (get_centroid_coordinates is_valid centroid gdf).length =
      (gdf.filter is_valid).length ∧
    (gdf.filter is_valid).length ≤ gdf.length ∧
    ∃ (iv : Geometry → Bool) (c : Geometry → Coord) (l : List Geometry),
      (get_centroid_coordinates iv c l).length < l.length := by
  refine ⟨get_centroid_coordinates_eq is_valid centroid gdf, ?_, ?_, ?_⟩
  · rw [get_centroid_coordinates_eq, List.length_map]
  · exact List.length_filter_le is_valid gdf
  · exact ⟨fun _ => false, fun _ => ⟨0, 0⟩, [.point ⟨0, 0⟩], by decide⟩

/-- Claim C7: `fetch_node_coordinates` partitions the id list into
consecutive chunks of at most 50 ids, all full except possibly the last,
and issues exactly one Overpass request per chunk, i.e. `⌈n / 50⌉`
requests in total (in `Nat` arithmetic, `(n + 49) / 50`). -/
theorem fetch_node_chunks_spec (ids : List Nat) :
    (fetch_node_chunks ids).flatten = ids ∧
    (fetch_node_chunks ids).length = (ids.length + 49) / 50 ∧
    (∀ c ∈ fetch_node_chunks ids, c.length ≤ 50) ∧
    (∀ i, i + 1 < (fetch_node_chunks ids).length →
      ((fetch_node_chunks ids).getD i []).length = 50) :=
  fetch_node_chunks_aux ids.length ids le_rfl

/-- Witness for `fetch_node_chunks_spec` at 120 ids: three chunks, the
first one full with 50 ids. -/
theorem fetch_node_chunks_spec_witness :
    (fetch_node_chunks (List.range 120)).length = 3 ∧
    ((fetch_node_chunks (List.range 120)).getD 0 []).length = 50 := by
  have h := fetch_node_chunks_spec (List.range 120)
  have hlen : (fetch_node_chunks (List.range 120)).length = 3 := by
    rw [h.2.1]
    norm_num
  exact ⟨hlen, h.2.2.2 0 (by rw [hlen]; norm_num)⟩

/-- Claim C8: in the left join of the boundary table with the weather table
on (latitude, longitude), every boundary row whose coordinate appears in
the weather table appears in the output joined to a matching weather row,
and every boundary row without a matching coordinate appears with its
weather side empty. -/
theorem merge_left_on_coords_spec (gdf : List (BoundaryRow β))
    (weather : List (WeatherRecord α)) (l : BoundaryRow β) (hl : l ∈ gdf) :
    ((∃ w ∈ weather, w.latitude = l.latitude ∧ w.longitude = l.longitude) →
      ∃ w, w ∈ weather ∧ w.latitude = l.latitude ∧ w.longitude = l.longitude ∧
        (l, some w) ∈ merge_left_on_coords gdf weather) ∧
    ((∀ w ∈ weather, ¬(w.latitude = l.latitude ∧ w.longitude = l.longitude)) →
      (l, none) ∈ merge_left_on_coords gdf weather) := by
  constructor
  · rintro ⟨w, hw, heq⟩
    have hwf : w ∈ weather.filter
        (fun v => v.latitude = l.latitude ∧ v.longitude = l.longitude) := by
      rw [List.mem_filter]
      exact ⟨hw, by simpa using heq⟩
    cases hms : weather.filter
        (fun v => v.latitude = l.latitude ∧ v.longitude = l.longitude) with
    | nil => rw [hms] at hwf; cases hwf
    | cons m ms =>
      have hm : m ∈ weather.filter
          (fun v => v.latitude = l.latitude ∧ v.longitude = l.longitude) := by
        rw [hms]; exact List.mem_cons_self _ _
      rw [List.mem_filter] at hm
      have hm2 : m.latitude = l.latitude ∧ m.longitude = l.longitude := by
        simpa using hm.2
      refine ⟨m, hm.1, hm2.1, hm2.2, ?_⟩
      · unfold merge_left_on_coords
        refine List.mem_flatMap.mpr ⟨l, hl, ?_⟩
        rw [hms]
        exact List.mem_map.mpr ⟨m, List.mem_cons_self _ _, rfl⟩
  · intro hnone
    have hnil : weather.filter
        (fun v => v.latitude = l.latitude ∧ v.longitude = l.longitude) = [] := by
      rw [List.filter_eq_nil_iff]
      intro w hw
      simpa using hnone w hw
    unfold merge_left_on_coords
    refine List.mem_flatMap.mpr ⟨l, hl, ?_⟩
    rw [hnil]
    exact List.mem_singleton.mpr rfl

/-- Concrete boundary table for the merge witness. -/
def gdfW : List (BoundaryRow Unit) := [⟨1, 2, ()⟩]

/-- Concrete weather table for the merge witness. -/
def weatherW : List (WeatherRecord Nat) := [⟨1, 2, "+02:00", 0, 5⟩]

/-- Witness for `merge_left_on_coords_spec`: the single boundary row of
`gdfW` is matched by the single weather row of `weatherW`. -/
theorem merge_left_on_coords_spec_witness :
    (⟨1, 2, ()⟩ : BoundaryRow Unit) ∈ gdfW ∧
    ∃ w, w ∈ weatherW ∧ w.latitude = 1 ∧ w.longitude = 2 ∧
      ((⟨1, 2, ()⟩ : BoundaryRow Unit), some w) ∈ merge_left_on_coords gdfW weatherW :=
  ⟨List.mem_singleton.mpr rfl,
   (merge_left_on_coords_spec gdfW weatherW ⟨1, 2, ()⟩
       (List.mem_singleton.mpr rfl)).1
     ⟨⟨1, 2, "+02:00", 0, 5⟩, List.mem_singleton.mpr rfl, rfl, rfl⟩⟩

/-- Claim C9: for every geometry whose type is neither `'Polygon'` nor
`'MultiPolygon'` (for example a Point or a LineString),
`convert_coordinates_format` returns the empty list and raises no error. -/
theorem convert_other_geom_type_empty (g : Geometry)
    (h1 : g.geom_type ≠ "MultiPolygon") (h2 : g.geom_type ≠ "Polygon") :
    convert_coordinates_format g = .lst [] := by
  cases g with
  | point c => rfl
  | lineString cs => rfl
  | polygon a b => exact absurd rfl h2
  | multiPolygon ps => exact absurd rfl h1

/-- Witness for `convert_other_geom_type_empty` at a concrete point. -/
theorem convert_other_geom_type_empty_witness :
    Geometry.geom_type (.point ⟨3, 4⟩) ≠ "MultiPolygon" ∧
    convert_coordinates_format (.point ⟨3, 4⟩) = .lst [] :=
  ⟨by decide, convert_other_geom_type_empty (.point ⟨3, 4⟩) (by decide) (by decide)⟩

/-- Claim C10: `fetch_node_coordinates` returns, chunk by chunk, exactly
the coordinates of the ids found in a successful response, in the order
the ids occur within each chunk; a chunk whose request returns a non-200
status contributes a printed message and no coordinates (its ids are
silently dropped), so the result can be shorter than the input and no
error is ever raised. -/
theorem fetch_node_coordinates_spec (oracle : List Nat → OverpassResponse)
    (ids : List Nat) :
    (fetch_node_coordinates oracle ids).1 =
      (fetch_node_chunks ids).flatMap (chunkCoords oracle) ∧
    (fetch_node_coordinates oracle ids).2 =
      (fetch_node_chunks ids).flatMap (chunkFail oracle) ∧
    (∀ chunk, (oracle chunk).status = 200 →
      chunkCoords oracle chunk =
        chunk.filterMap (nodesDict (oracle chunk).elements) ∧
      chunkFail oracle chunk = []) ∧
    (∀ chunk, (oracle chunk).status ≠ 200 →
      chunkCoords oracle chunk = [] ∧
      chunkFail oracle chunk = [node_fail_msg chunk (oracle chunk).status]) ∧
    (fetch_node_coordinates oracle ids).1.length ≤ ids.length := by
  have heq := fetch_node_coordinates_eq oracle ids
  refine ⟨by rw [heq], by rw [heq], ?_, ?_, ?_⟩
  · intro chunk h200
    constructor
    · simp [chunkCoords, h200]
    · simp [chunkFail, h200]
  · intro chunk hne
    constructor
    · simp [chunkCoords, hne]
    · simp [chunkFail, hne]
  · rw [heq]
    calc ((fetch_node_chunks ids).flatMap (chunkCoords oracle)).length
        ≤ (fetch_node_chunks ids).flatten.length :=
          flatMap_chunkCoords_length_le oracle _
      _ = ids.length := by rw [fetch_node_chunks_flatten]

/-- A concrete node oracle: every chunk succeeds with two known nodes. -/
def oracleNodes : List Nat → OverpassResponse :=
  fun _ => ⟨200, [⟨1, 10, 20⟩, ⟨2, 30, 40⟩]⟩

/-- Witness for `fetch_node_coordinates_spec` at ids `[1, 2, 3]`. -/
theorem fetch_node_coordinates_spec_witness :
    ((oracleNodes [1, 2, 3]).status = 200 ∧
      chunkCoords oracleNodes [1, 2, 3] =
        [1, 2, 3].filterMap (nodesDict (oracleNodes [1, 2, 3]).elements)) ∧
    (fetch_node_coordinates oracleNodes [1, 2, 3]).1.length ≤ 3 :=
  ⟨⟨rfl, ((fetch_node_coordinates_spec oracleNodes [1, 2, 3]).2.2.1
      [1, 2, 3] rfl).1⟩,
   (fetch_node_coordinates_spec oracleNodes [1, 2, 3]).2.2.2.2⟩
